import Mathlib

/-!
Verification of the raiko-host startup layer (`raiko-host/src/main.rs`):
two-phase configuration resolution (`Opt::from_args`, optional TOML file
overlay via `Opt::from_args_with_toml`) and logging bootstrap, ending in a
single call to the external `serve` entrypoint.

The `Opt` record, its compiled defaults, env-variable wiring and the control
flow of `main` are embedded from `src/raiko-host/src/main.rs`.  The argument
parse engine itself (structopt / structopt-toml) and `PathBuf::join` are
library code outside the repository; they are modelled from the spec's and
the libraries' documented semantics, as noted on each definition.
-/

/-- The `Opt` record of `main.rs` (lines 29-125): one field per recognized
setting.  Rust `PathBuf` fields are modelled as `String`, `usize`/`u32` as
`Nat`, `Option<PathBuf>` as `Option String`. -/
structure Opt where
  bind : String
  cache : String
  guest : String
  sgx_instance_id : Nat
  log_path : Option String
  proof_cache : Nat
  concurrency_limit : Nat
  max_log_days : Nat
  l2_chain : String
  max_caches : Nat
  config_path : Option String
  config_file : String
  log_level : String
deriving Repr, DecidableEq

/-- The compiled defaults declared by the `default_value` attributes on `Opt`
in `main.rs`.  `log_path` and `config_path` have no default (they are
`Option` fields with no `default_value` attribute). -/
def Opt.defaults : Opt where
  bind := "0.0.0.0:8080"
  cache := "/tmp"
  guest := "raiko-host/guests"
  sgx_instance_id := 0
  log_path := none
  proof_cache := 1000
  concurrency_limit := 10
  max_log_days := 7
  l2_chain := "internal_devnet_a"
  max_caches := 20
  config_path := none
  config_file := "config.toml"
  log_level := "info"

/-- One layer of per-field configuration sources (the command line, the
environment, or a decoded TOML file): for each `Opt` field, `some v` when
this layer supplies a value for it and `none` when it does not.  Values are
carried already decoded to the field's type; type/format errors of a layer
are out of scope of the claims about precedence. -/
structure Sources where
  bind : Option String
  cache : Option String
  guest : Option String
  sgx_instance_id : Option Nat
  log_path : Option String
  proof_cache : Option Nat
  concurrency_limit : Option Nat
  max_log_days : Option Nat
  l2_chain : Option String
  max_caches : Option Nat
  config_path : Option String
  config_file : Option String
  log_level : Option String
deriving Repr, DecidableEq

/-- The empty layer: no field is supplied. -/
def Sources.empty : Sources :=
  ⟨none, none, none, none, none, none, none, none, none, none, none, none, none⟩

/-- Two-layer precedence for a field with a compiled default: the first
layer wins, else the second, else the default. -/
def pick2 {α : Type} (c e : Option α) (d : α) : α :=
  match c with
  | some v => v
  | none =>
    match e with
    | some v => v
    | none => d

/-- Three-layer precedence for a field with a compiled default. -/
def pick3 {α : Type} (c e f : Option α) (d : α) : α :=
  match c with
  | some v => v
  | none =>
    match e with
    | some v => v
    | none =>
      match f with
      | some v => v
      | none => d

/-- Two-layer precedence for an `Option` field with no default. -/
def opt2 {α : Type} (c e : Option α) : Option α :=
  match c with
  | some v => some v
  | none => e

/-- Three-layer precedence for an `Option` field with no default. -/
def opt3 {α : Type} (c e f : Option α) : Option α :=
  match c with
  | some v => some v
  | none =>
    match e with
    | some v => some v
    | none => f

/-- Modelled from the spec: `Opt::from_args` (structopt library code, not
under src/).  Phase-1 baseline parse: for every field a command-line flag
wins over the field's environment variable, which wins over the compiled
default declared on `Opt` in `main.rs`; fields without a default stay unset
when neither layer supplies them. -/
def Opt.from_args (cli env : Sources) : Opt where
  bind := pick2 cli.bind env.bind Opt.defaults.bind
  cache := pick2 cli.cache env.cache Opt.defaults.cache
  guest := pick2 cli.guest env.guest Opt.defaults.guest
  sgx_instance_id := pick2 cli.sgx_instance_id env.sgx_instance_id Opt.defaults.sgx_instance_id
  log_path := opt2 cli.log_path env.log_path
  proof_cache := pick2 cli.proof_cache env.proof_cache Opt.defaults.proof_cache
  concurrency_limit := pick2 cli.concurrency_limit env.concurrency_limit Opt.defaults.concurrency_limit
  max_log_days := pick2 cli.max_log_days env.max_log_days Opt.defaults.max_log_days
  l2_chain := pick2 cli.l2_chain env.l2_chain Opt.defaults.l2_chain
  max_caches := pick2 cli.max_caches env.max_caches Opt.defaults.max_caches
  config_path := opt2 cli.config_path env.config_path
  config_file := pick2 cli.config_file env.config_file Opt.defaults.config_file
  log_level := pick2 cli.log_level env.log_level Opt.defaults.log_level

/-- Modelled from the spec: `Opt::from_args_with_toml` (structopt-toml
library code, not under src/).  Phase-2 re-parse of the same command line
with the decoded file contents as an additional lowest-priority layer:
flag > environment variable > file value > compiled default. -/
def Opt.from_args_with_toml (cli env file : Sources) : Opt where
  bind := pick3 cli.bind env.bind file.bind Opt.defaults.bind
  cache := pick3 cli.cache env.cache file.cache Opt.defaults.cache
  guest := pick3 cli.guest env.guest file.guest Opt.defaults.guest
  sgx_instance_id := pick3 cli.sgx_instance_id env.sgx_instance_id file.sgx_instance_id Opt.defaults.sgx_instance_id
  log_path := opt3 cli.log_path env.log_path file.log_path
  proof_cache := pick3 cli.proof_cache env.proof_cache file.proof_cache Opt.defaults.proof_cache
  concurrency_limit := pick3 cli.concurrency_limit env.concurrency_limit file.concurrency_limit Opt.defaults.concurrency_limit
  max_log_days := pick3 cli.max_log_days env.max_log_days file.max_log_days Opt.defaults.max_log_days
  l2_chain := pick3 cli.l2_chain env.l2_chain file.l2_chain Opt.defaults.l2_chain
  max_caches := pick3 cli.max_caches env.max_caches file.max_caches Opt.defaults.max_caches
  config_path := opt3 cli.config_path env.config_path file.config_path
  config_file := pick3 cli.config_file env.config_file file.config_file Opt.defaults.config_file
  log_level := pick3 cli.log_level env.log_level file.log_level Opt.defaults.log_level

/-- Unix absolute path test, as used by Rust's `Path::is_absolute`: the
path begins with the separator `/`. -/
def isAbsolute (p : String) : Bool :=
  match p.data with
  | [] => false
  | c :: _ => c == '/'

/-- Whether a path already ends with the separator `/`. -/
def endsWithSlash (s : String) : Bool :=
  match s.data.getLast? with
  | some c => c == '/'
  | none => false

/-- Model of Rust's `PathBuf::join` (std library, documented semantics): if
the joined component is absolute it replaces the base path entirely;
otherwise it is appended with a separator. -/
def pathJoin (dir name : String) : String :=
  if isAbsolute name then name
  else if endsWithSlash dir then dir ++ name
  else dir ++ "/" ++ name

/-- Errors that abort bootstrap, from the error paths of `main` in
`main.rs`: a failed `std::fs::read` of the config file (line 147), a failed
UTF-8 or TOML decode of its contents (lines 150-151), and a failed creation
of the rolling file appender (line 164, a panic via `expect`). -/
inductive BootError where
  | configLoadError (path : String)
  | configParseError
  | logSinkError (dir : String)
deriving Repr, DecidableEq

/-- The ambient world `main` runs in: the per-field command-line and
environment layers seen by both parses, the file system (`fs p` is the
contents of path `p` when it is readable, `none` otherwise), the combined
UTF-8 + TOML decoder (`toml raw` is the decoded per-field layer when `raw`
decodes, `none` otherwise), and whether the rolling file appender can be
created under a given log directory. -/
structure World where
  cli : Sources
  env : Sources
  fs : String → Option String
  toml : String → Option Sources
  canCreateAppender : String → Bool

/-- Configuration resolution, embedded from `main.rs` lines 143-152: parse
the command line; if the baseline carries a `config_path`, join it with
`config_file`, read that file (read failure is fatal), decode it (decode
failure is fatal) and re-parse with the file contents as the
lowest-priority layer, replacing the baseline in full. -/
def resolveConfig (w : World) : Except BootError Opt :=
  let opt := Opt.from_args w.cli w.env
  match opt.config_path with
  | none => .ok opt
  | some dir =>
    let path := pathJoin dir opt.config_file
    match w.fs path with
    | none => .error (.configLoadError path)
    | some raw =>
      match w.toml raw with
      | none => .error .configParseError
      | some fileSrc => .ok (Opt.from_args_with_toml w.cli w.env fileSrc)

/-- Formatter attached to a sink: the default human-readable `fmt` layer or
the structured `json()` layer. -/
inductive LogFormat where
  | human
  | json
deriving Repr, DecidableEq

/-- Rotation policy of the file appender (`Rotation::DAILY` in `main.rs`). -/
inductive Rotation where
  | daily
deriving Repr, DecidableEq

/-- The installed logging sink, from `main.rs` lines 154-175: either the
console subscriber (default formatter) or a rotating file appender with a
fixed filename stem, daily rotation, a retention bound, wrapped in a
non-blocking writer, with the JSON formatter. -/
inductive Sink where
  | console (level : String) (format : LogFormat)
  | file (dir : String) (stem : String) (rotation : Rotation) (maxLogFiles : Nat)
      (nonBlocking : Bool) (level : String) (format : LogFormat)
deriving Repr, DecidableEq

/-- Result of logging bootstrap: the installed sink, and whether a guard
owning the non-blocking writer's background flush resource was returned. -/
structure LogSetup where
  sink : Sink
  guard : Bool
deriving Repr, DecidableEq

/-- Logging bootstrap, embedded from `main.rs` lines 154-175: with
`log_path` set, build a daily-rotating appender with filename stem
"raiko.log" keeping at most `max_log_days` files (panicking if the appender
cannot be created), wrap it non-blocking, install it with the JSON
formatter and return the guard; with `log_path` unset, install the console
subscriber and return no guard. -/
def logBootstrap (canCreate : String → Bool) (o : Opt) : Except BootError LogSetup :=
  match o.log_path with
  | some p =>
    if canCreate p then
      .ok ⟨.file p "raiko.log" .daily o.max_log_days true o.log_level .json, true⟩
    else
      .error (.logSinkError p)
  | none => .ok ⟨.console o.log_level .human, false⟩

/-- The argument tuple `main` passes to the external `serve` entrypoint
(`main.rs` lines 177-186), in order. -/
structure ServeCall where
  bind : String
  guest : String
  cache : String
  l2_chain : String
  sgx_instance_id : Nat
  proof_cache : Nat
  concurrency_limit : Nat
  max_caches : Nat
deriving Repr, DecidableEq

/-- The fields of the resolved `Opt` handed to `serve`. -/
def serveArgs (o : Opt) : ServeCall :=
  ⟨o.bind, o.guest, o.cache, o.l2_chain, o.sgx_instance_id, o.proof_cache,
    o.concurrency_limit, o.max_caches⟩

/-- Successful bootstrap outcome: the resolved configuration, the installed
logging setup, and the list of calls made to the `serve` entrypoint. -/
structure MainOk where
  opt : Opt
  log : LogSetup
  serveCalls : List ServeCall
deriving Repr, DecidableEq

/-- The startup path of `main` (`main.rs` lines 142-188): resolve the
configuration, bootstrap logging from it, then invoke `serve` exactly once
with the resolved fields.  Any error aborts before the remaining steps. -/
def runMain (w : World) : Except BootError MainOk :=
  match resolveConfig w with
  | .error e => .error e
  | .ok opt =>
    match logBootstrap w.canCreateAppender opt with
    | .error e => .error e
    | .ok ls => .ok ⟨opt, ls, [serveArgs opt]⟩

/-! ## Concrete worlds used by witnesses -/

/-- A command line supplying `--bind` and `--config-path=/cfg`. -/
def cli1 : Sources :=
  { Sources.empty with bind := some "1.2.3.4:9000", config_path := some "/cfg" }

/-- An environment supplying only the cache directory. -/
def env1 : Sources :=
  { Sources.empty with cache := some "/envcache" }

/-- A decoded config file supplying cache and guest directories. -/
def fileS1 : Sources :=
  { Sources.empty with cache := some "/filecache", guest := some "/fileguest" }

/-- A world whose file system holds a decodable config file at
`/cfg/config.toml`. -/
def w1 : World :=
  ⟨cli1, env1,
    fun p => if p = "/cfg/config.toml" then some "G" else none,
    fun s => if s = "G" then some fileS1 else none,
    fun _ => true⟩

/-- Command line of the §8 scenario: `--max-caches=10` plus a config path. -/
def cli5 : Sources :=
  { Sources.empty with max_caches := some 10, config_path := some "/etc/raiko" }

/-- World of the §8 scenario: the config file sets `concurrency_limit = 25`. -/
def w5 : World :=
  ⟨cli5, Sources.empty,
    fun p => if p = "/etc/raiko/config.toml" then some "C25" else none,
    fun s => if s = "C25" then some { Sources.empty with concurrency_limit := some 25 } else none,
    fun _ => true⟩

/-- A command line pointing at a config directory with no readable file. -/
def cli3 : Sources :=
  { Sources.empty with config_path := some "/nocfg" }

/-- A world where no file is readable at all. -/
def w3 : World :=
  ⟨cli3, Sources.empty, fun _ => none, fun _ => none, fun _ => true⟩

/-- A command line enabling file logging under `/unwritable`. -/
def cli7 : Sources :=
  { Sources.empty with log_path := some "/unwritable" }

/-- A world where the rolling appender can never be created. -/
def w7 : World :=
  ⟨cli7, Sources.empty, fun _ => none, fun _ => none, fun _ => false⟩

/-- A world with nothing supplied at all. -/
def w8 : World :=
  ⟨Sources.empty, Sources.empty, fun _ => none, fun _ => none, fun _ => true⟩

/-- A command line pointing at config directory `/d`. -/
def cli9 : Sources :=
  { Sources.empty with config_path := some "/d" }

/-- A decoded config file that itself points at a different config
location. -/
def fileS9 : Sources :=
  { Sources.empty with config_path := some "/elsewhere", config_file := some "other.toml" }

/-- TOML decoder for the `w9` worlds. -/
def toml9 : String → Option Sources :=
  fun s => if s = "T" then some fileS9 else none

/-- A world whose file system is readable only at `/d/config.toml`. -/
def w9 : World :=
  ⟨cli9, Sources.empty,
    fun p => if p = "/d/config.toml" then some "T" else none,
    toml9, fun _ => true⟩

/-- Same as `w9` except every other path (including `/elsewhere/other.toml`)
now reads differently. -/
def w9v : World :=
  ⟨cli9, Sources.empty,
    fun p => if p = "/d/config.toml" then some "T" else some "OTHER",
    toml9, fun _ => true⟩

/-- A command line with an absolute `--config-file` and a config directory
that should be ignored. -/
def cli10 : Sources :=
  { Sources.empty with config_path := some "/ignored", config_file := some "/abs/app.toml" }

/-- A world for the absolute config-file scenario. -/
def w10 : World :=
  ⟨cli10, Sources.empty,
    fun p => if p = "/abs/app.toml" then some "A" else none,
    fun s => if s = "A" then some Sources.empty else none,
    fun _ => true⟩

/-! ## Claim theorems -/

/-- C1: when a config file is used, resolution re-parses the same
command-line and environment layers with the decoded file contents as an
additional lowest-priority source, and every resolved field follows the
precedence flag > environment variable > file value > compiled default
(for the two defaultless `Option` fields: flag > env > file > unset). -/
theorem c1_file_overlay_precedence (w : World) (dir raw : String) (fileSrc : Sources)
    (h1 : (Opt.from_args w.cli w.env).config_path = some dir)
    (h2 : w.fs (pathJoin dir (Opt.from_args w.cli w.env).config_file) = some raw)
    (h3 : w.toml raw = some fileSrc) :
    resolveConfig w = .ok (Opt.from_args_with_toml w.cli w.env fileSrc)
    ∧ (Opt.from_args_with_toml w.cli w.env fileSrc).bind
        = pick3 w.cli.bind w.env.bind fileSrc.bind "0.0.0.0:8080"
    ∧ (Opt.from_args_with_toml w.cli w.env fileSrc).cache
        = pick3 w.cli.cache w.env.cache fileSrc.cache "/tmp"
    ∧ (Opt.from_args_with_toml w.cli w.env fileSrc).guest
        = pick3 w.cli.guest w.env.guest fileSrc.guest "raiko-host/guests"
    ∧ (Opt.from_args_with_toml w.cli w.env fileSrc).sgx_instance_id
        = pick3 w.cli.sgx_instance_id w.env.sgx_instance_id fileSrc.sgx_instance_id 0
    ∧ (Opt.from_args_with_toml w.cli w.env fileSrc).log_path
        = opt3 w.cli.log_path w.env.log_path fileSrc.log_path
    ∧ (Opt.from_args_with_toml w.cli w.env fileSrc).proof_cache
        = pick3 w.cli.proof_cache w.env.proof_cache fileSrc.proof_cache 1000
    ∧ (Opt.from_args_with_toml w.cli w.env fileSrc).concurrency_limit
        = pick3 w.cli.concurrency_limit w.env.concurrency_limit fileSrc.concurrency_limit 10
    ∧ (Opt.from_args_with_toml w.cli w.env fileSrc).max_log_days
        = pick3 w.cli.max_log_days w.env.max_log_days fileSrc.max_log_days 7
    ∧ (Opt.from_args_with_toml w.cli w.env fileSrc).l2_chain
        = pick3 w.cli.l2_chain w.env.l2_chain fileSrc.l2_chain "internal_devnet_a"
    ∧ (Opt.from_args_with_toml w.cli w.env fileSrc).max_caches
        = pick3 w.cli.max_caches w.env.max_caches fileSrc.max_caches 20
    ∧ (Opt.from_args_with_toml w.cli w.env fileSrc).config_path
        = opt3 w.cli.config_path w.env.config_path fileSrc.config_path
    ∧ (Opt.from_args_with_toml w.cli w.env fileSrc).config_file
        = pick3 w.cli.config_file w.env.config_file fileSrc.config_file "config.toml"
    ∧ (Opt.from_args_with_toml w.cli w.env fileSrc).log_level
        = pick3 w.cli.log_level w.env.log_level fileSrc.log_level "info" := by
  refine ⟨?_, rfl, rfl, rfl, rfl, rfl, rfl, rfl, rfl, rfl, rfl, rfl, rfl, rfl⟩
  simp only [resolveConfig, h1, h2, h3]

/-- Witness for C1 at the concrete world `w1`. -/
theorem c1_file_overlay_precedence_witness :
    resolveConfig w1 = .ok (Opt.from_args_with_toml w1.cli w1.env fileS1) :=
  (c1_file_overlay_precedence w1 "/cfg" "G" fileS1 rfl (by decide) (by decide)).1

/-- C2: the file-overlay parse replaces the baseline in full — the resolved
configuration is `from_args_with_toml` of the three layers alone (the
baseline `Opt` is not an input), and every field not supplied by flag,
environment or file in this second pass holds the compiled default. -/
theorem c2_overlay_replaces_baseline (w : World) (dir raw : String) (fileSrc : Sources)
    (h1 : (Opt.from_args w.cli w.env).config_path = some dir)
    (h2 : w.fs (pathJoin dir (Opt.from_args w.cli w.env).config_file) = some raw)
    (h3 : w.toml raw = some fileSrc) :
    resolveConfig w = .ok (Opt.from_args_with_toml w.cli w.env fileSrc)
    ∧ (w.cli.bind = none → w.env.bind = none → fileSrc.bind = none →
        (Opt.from_args_with_toml w.cli w.env fileSrc).bind = "0.0.0.0:8080")
    ∧ (w.cli.cache = none → w.env.cache = none → fileSrc.cache = none →
        (Opt.from_args_with_toml w.cli w.env fileSrc).cache = "/tmp")
    ∧ (w.cli.guest = none → w.env.guest = none → fileSrc.guest = none →
        (Opt.from_args_with_toml w.cli w.env fileSrc).guest = "raiko-host/guests")
    ∧ (w.cli.sgx_instance_id = none → w.env.sgx_instance_id = none → fileSrc.sgx_instance_id = none →
        (Opt.from_args_with_toml w.cli w.env fileSrc).sgx_instance_id = 0)
    ∧ (w.cli.log_path = none → w.env.log_path = none → fileSrc.log_path = none →
        (Opt.from_args_with_toml w.cli w.env fileSrc).log_path = none)
    ∧ (w.cli.proof_cache = none → w.env.proof_cache = none → fileSrc.proof_cache = none →
        (Opt.from_args_with_toml w.cli w.env fileSrc).proof_cache = 1000)
    ∧ (w.cli.concurrency_limit = none → w.env.concurrency_limit = none → fileSrc.concurrency_limit = none →
        (Opt.from_args_with_toml w.cli w.env fileSrc).concurrency_limit = 10)
    ∧ (w.cli.max_log_days = none → w.env.max_log_days = none → fileSrc.max_log_days = none →
        (Opt.from_args_with_toml w.cli w.env fileSrc).max_log_days = 7)
    ∧ (w.cli.l2_chain = none → w.env.l2_chain = none → fileSrc.l2_chain = none →
        (Opt.from_args_with_toml w.cli w.env fileSrc).l2_chain = "internal_devnet_a")
    ∧ (w.cli.max_caches = none → w.env.max_caches = none → fileSrc.max_caches = none →
        (Opt.from_args_with_toml w.cli w.env fileSrc).max_caches = 20)
    ∧ (w.cli.config_path = none → w.env.config_path = none → fileSrc.config_path = none →
        (Opt.from_args_with_toml w.cli w.env fileSrc).config_path = none)
    ∧ (w.cli.config_file = none → w.env.config_file = none → fileSrc.config_file = none →
        (Opt.from_args_with_toml w.cli w.env fileSrc).config_file = "config.toml")
    ∧ (w.cli.log_level = none → w.env.log_level = none → fileSrc.log_level = none →
        (Opt.from_args_with_toml w.cli w.env fileSrc).log_level = "info") := by
  refine ⟨?_, ?_, ?_, ?_, ?_, ?_, ?_, ?_, ?_, ?_, ?_, ?_, ?_, ?_⟩
  · simp only [resolveConfig, h1, h2, h3]
  all_goals
    intro ha hb hc
    simp [Opt.from_args_with_toml, pick3, opt3, ha, hb, hc, Opt.defaults]

/-- Witness for C2 at the concrete world `w1`: the `sgx_instance_id` field
is supplied by no layer, so the resolved value is the compiled default 0. -/
theorem c2_overlay_replaces_baseline_witness :
    (Opt.from_args_with_toml w1.cli w1.env fileS1).sgx_instance_id = 0 :=
  ((c2_overlay_replaces_baseline w1 "/cfg" "G" fileS1 rfl (by decide)
      (by decide)).2.2.2.2.1) rfl rfl rfl

/-- C3: if the baseline carries a config path and the joined file location
cannot be read, resolution fails with `configLoadError` naming that
location, no `Config` is produced, and `main` aborts with that error before
the logging or serving stages: `runMain` never reaches an `ok` outcome. -/
theorem c3_unreadable_config_fatal (w : World) (dir : String)
    (h1 : (Opt.from_args w.cli w.env).config_path = some dir)
    (h2 : w.fs (pathJoin dir (Opt.from_args w.cli w.env).config_file) = none) :
    resolveConfig w
      = .error (.configLoadError (pathJoin dir (Opt.from_args w.cli w.env).config_file))
    ∧ runMain w
      = .error (.configLoadError (pathJoin dir (Opt.from_args w.cli w.env).config_file))
    ∧ ∀ ok : MainOk, runMain w ≠ .ok ok := by
  have hres : resolveConfig w
      = .error (.configLoadError (pathJoin dir (Opt.from_args w.cli w.env).config_file)) := by
    simp only [resolveConfig, h1, h2]
  have hrun : runMain w
      = .error (.configLoadError (pathJoin dir (Opt.from_args w.cli w.env).config_file)) := by
    simp only [runMain, hres]
  exact ⟨hres, hrun, fun ok hok => by simp [hrun] at hok⟩

/-- Witness for C3 at the concrete world `w3`, whose file system has no
readable file. -/
theorem c3_unreadable_config_fatal_witness :
    resolveConfig w3 = .error (.configLoadError "/nocfg/config.toml") :=
  (c3_unreadable_config_fatal w3 "/nocfg" rfl rfl).1

/-- C4: logging bootstrap returns a guard if and only if a log directory is
given; with `log_path` unset it installs the console sink with the
human-readable formatter and no guard, and with `log_path` set (and the
appender creatable) it installs a daily-rotating non-blocking file sink
under that directory with the JSON formatter and returns the guard. -/
theorem c4_guard_iff_log_dir (canCreate : String → Bool) (o : Opt) :
    (o.log_path = none →
      logBootstrap canCreate o = .ok ⟨.console o.log_level .human, false⟩)
    ∧ (∀ p, o.log_path = some p → canCreate p = true →
      logBootstrap canCreate o
        = .ok ⟨.file p "raiko.log" .daily o.max_log_days true o.log_level .json, true⟩)
    ∧ (∀ s, logBootstrap canCreate o = .ok s →
      (s.guard = true ↔ ∃ p, o.log_path = some p)) := by
  refine ⟨?_, ?_, ?_⟩
  · intro h
    simp [logBootstrap, h]
  · intro p hp hc
    simp [logBootstrap, hp, hc]
  · intro s hs
    cases hlp : o.log_path with
    | none =>
      simp only [logBootstrap, hlp] at hs
      cases hs
      simp [hlp]
    | some p =>
      simp only [logBootstrap, hlp] at hs
      by_cases hc : canCreate p = true
      · simp only [hc, if_true] at hs
        cases hs
        simp [hlp]
      · simp [hc] at hs

/-- Witness for C4 at the default configuration (no log directory). -/
theorem c4_guard_iff_log_dir_witness :
    logBootstrap (fun _ => true) Opt.defaults = .ok ⟨.console "info" .human, false⟩ :=
  (c4_guard_iff_log_dir (fun _ => true) Opt.defaults).1 rfl

/-- C5: no semantic validation at resolution: with the config file setting
`concurrency_limit = 25` and the command line setting `--max-caches=10`,
resolution succeeds (no error of any kind is raised) and the resolved
configuration holds `concurrency_limit = 25` and `max_caches = 10`, even
though this violates the documented `max_caches >= concurrency_limit`
invariant. -/
theorem c5_no_semantic_validation :
    resolveConfig w5
      = .ok { Opt.defaults with
                concurrency_limit := 25, max_caches := 10, config_path := some "/etc/raiko" }
    ∧ ({ Opt.defaults with
          concurrency_limit := 25, max_caches := 10,
          config_path := some "/etc/raiko" } : Opt).max_caches
        < ({ Opt.defaults with
              concurrency_limit := 25, max_caches := 10,
              config_path := some "/etc/raiko" } : Opt).concurrency_limit := by
  constructor
  · rfl
  · decide

/-- C6: with no command-line flag, environment variable or file value
supplied for any field, the resolved configuration is exactly the compiled
defaults: bind 0.0.0.0:8080, cache /tmp, guest raiko-host/guests,
sgx-instance-id 0, log-path unset, proof-cache 1000, concurrency-limit 10,
max-log-days 7, l2-chain internal_devnet_a, max-caches 20, config-path
unset (so no file is consulted), config-file config.toml, log-level info. -/
theorem c6_all_defaults (w : World)
    (h1 : w.cli = Sources.empty) (h2 : w.env = Sources.empty) :
    resolveConfig w
      = .ok ⟨"0.0.0.0:8080", "/tmp", "raiko-host/guests", 0, none, 1000, 10, 7,
          "internal_devnet_a", 20, none, "config.toml", "info"⟩ := by
  obtain ⟨cli, env, fs, toml, cc⟩ := w
  obtain rfl : cli = Sources.empty := h1
  obtain rfl : env = Sources.empty := h2
  rfl

/-- Witness for C6 at the concrete world `w8`. -/
theorem c6_all_defaults_witness :
    resolveConfig w8
      = .ok ⟨"0.0.0.0:8080", "/tmp", "raiko-host/guests", 0, none, 1000, 10, 7,
          "internal_devnet_a", 20, none, "config.toml", "info"⟩ :=
  c6_all_defaults w8 rfl rfl

/-- C7: if the rolling file appender cannot be created under the configured
log directory, `main` aborts with `logSinkError`: no logger is installed
and the `serve` entrypoint is never invoked (no `ok` outcome exists). -/
theorem c7_sink_failure_fatal (w : World) (o : Opt) (p : String)
    (h1 : resolveConfig w = .ok o) (h2 : o.log_path = some p)
    (h3 : w.canCreateAppender p = false) :
    runMain w = .error (.logSinkError p) ∧ ∀ ok : MainOk, runMain w ≠ .ok ok := by
  have hlb : logBootstrap w.canCreateAppender o = .error (.logSinkError p) := by
    simp [logBootstrap, h2, h3]
  have hrun : runMain w = .error (.logSinkError p) := by
    simp only [runMain, h1, hlb]
  exact ⟨hrun, fun ok hok => by simp [hrun] at hok⟩

/-- Witness for C7 at the concrete world `w7`, whose log directory is never
writable. -/
theorem c7_sink_failure_fatal_witness :
    runMain w7 = .error (.logSinkError "/unwritable") :=
  (c7_sink_failure_fatal w7 (Opt.from_args cli7 Sources.empty) "/unwritable" rfl rfl rfl).1

/-- C8: after configuration resolution and logging bootstrap both succeed,
the `serve` entrypoint is invoked exactly once, with exactly the bind
address, guest directory, cache directory, chain id, instance id,
proof-cache capacity, concurrency limit and max cache slots of the
resolved configuration. -/
theorem c8_serve_called_once (w : World) (o : Opt) (ls : LogSetup)
    (h1 : resolveConfig w = .ok o)
    (h2 : logBootstrap w.canCreateAppender o = .ok ls) :
    runMain w = .ok ⟨o, ls, [serveArgs o]⟩
    ∧ serveArgs o = ⟨o.bind, o.guest, o.cache, o.l2_chain, o.sgx_instance_id,
        o.proof_cache, o.concurrency_limit, o.max_caches⟩
    ∧ ∀ r : MainOk, runMain w = .ok r → r.serveCalls.length = 1 := by
  have hrun : runMain w = .ok ⟨o, ls, [serveArgs o]⟩ := by
    simp only [runMain, h1, h2]
  refine ⟨hrun, rfl, ?_⟩
  intro r hr
  rw [hrun] at hr
  cases hr
  rfl

/-- Witness for C8 at the concrete world `w8`. -/
theorem c8_serve_called_once_witness :
    runMain w8
      = .ok ⟨Opt.from_args Sources.empty Sources.empty, ⟨.console "info" .human, false⟩,
          [serveArgs (Opt.from_args Sources.empty Sources.empty)]⟩ :=
  (c8_serve_called_once w8 (Opt.from_args Sources.empty Sources.empty)
    ⟨.console "info" .human, false⟩ rfl rfl).1

/-- C9: the file overlay is applied at most once per run: resolution
consults the file system only at the single location derived from the
phase-1 baseline, so two worlds with the same command line, environment
and decoder that agree on that one location resolve identically — the
`config_path`/`config_file` fields produced by the second parse (which in
`w9v`/`w9` point at `/elsewhere/other.toml`) are never used for a further
read. -/
theorem c9_overlay_at_most_once (w w2 : World)
    (h1 : w2.cli = w.cli) (h2 : w2.env = w.env) (h3 : w2.toml = w.toml)
    (h4 : ∀ dir, (Opt.from_args w.cli w.env).config_path = some dir →
      w2.fs (pathJoin dir (Opt.from_args w.cli w.env).config_file)
        = w.fs (pathJoin dir (Opt.from_args w.cli w.env).config_file)) :
    resolveConfig w2 = resolveConfig w := by
  cases hcp : (Opt.from_args w.cli w.env).config_path with
  | none => simp only [resolveConfig, h1, h2, hcp]
  | some dir =>
    have h5 := h4 dir hcp
    simp only [resolveConfig, h1, h2, h3, hcp, h5]

/-- Witness for C9: `w9v` differs from `w9` at every path except
`/d/config.toml` (in particular at `/elsewhere/other.toml`, where the
overlaid configuration points), yet resolution is unchanged. -/
theorem c9_overlay_at_most_once_witness :
    resolveConfig w9v = resolveConfig w9 :=
  c9_overlay_at_most_once w9 w9v rfl rfl rfl (by
    intro dir h
    have h' : some "/d" = some dir := h
    injection h' with h''
    subst h''
    decide)

/-- C10: if the config-file name is absolute, joining it onto the
config-path directory yields the absolute name alone, so the directory is
ignored and resolution reads the file from the absolute location given by
the config-file name. -/
theorem c10_absolute_config_file (w : World) (dir : String)
    (h1 : (Opt.from_args w.cli w.env).config_path = some dir)
    (h2 : isAbsolute (Opt.from_args w.cli w.env).config_file = true) :
    pathJoin dir (Opt.from_args w.cli w.env).config_file
      = (Opt.from_args w.cli w.env).config_file
    ∧ resolveConfig w =
      (match w.fs (Opt.from_args w.cli w.env).config_file with
       | none => .error (.configLoadError (Opt.from_args w.cli w.env).config_file)
       | some raw =>
         match w.toml raw with
         | none => .error .configParseError
         | some fileSrc => .ok (Opt.from_args_with_toml w.cli w.env fileSrc)) := by
  have hj : pathJoin dir (Opt.from_args w.cli w.env).config_file
      = (Opt.from_args w.cli w.env).config_file := by
    simp [pathJoin, h2]
  exact ⟨hj, by simp only [resolveConfig, h1, hj]⟩

/-- Witness for C10 at the concrete world `w10`, whose config-file name is
the absolute `/abs/app.toml` while `--config-path=/ignored`. -/
theorem c10_absolute_config_file_witness :
    pathJoin "/ignored" (Opt.from_args w10.cli w10.env).config_file
      = (Opt.from_args w10.cli w10.env).config_file :=
  (c10_absolute_config_file w10 "/ignored" rfl (by decide)).1
